import Mathlib

/-!
Verification development for `abipy/electrons/ddk.py` (post-processing of
ABINIT DDK.nc files) and for the degenerate-state clustering exercised by
`abipy/electrons/tests/test_ebands.py`.

The python module defines three classes:

* `DdksAnalyzer` — receives three DDK files (derivatives of the eigenvalues
  along the three reduced directions), validates them, and exposes derived
  quantities (`v_skb`, `get_doses`).
* `DdkFile` — a single DDK.nc file; its constructor decodes the perturbation
  index `pertcase` into `(idir, ipert)`.
* `DdkReader` — the low-level reader; its constructor demands a band count
  that is uniform over (spin, k-point).

The shallow embedding below models the file contents as plain data
(rationals stand for the floating-point payload; the crystal structure is
represented by an identifier because the python code only ever compares
structures for equality).  Functions that can raise in python return
`Except String`.
-/

namespace Ddk

/-- A k-point: fractional coordinates and its integration weight. -/
structure Kpoint where
  frac_coords : Rat × Rat × Rat
  weight : Rat
deriving DecidableEq, Repr

/-- Electron-band metadata carried by the `ebands` object of a DDK file:
crystal structure (compared only for equality, hence an identifier),
the list of k-points, the `nsppol`/`nspden`/`nspinor` dimensions, the
number of bands and the eigenvalues `eigens[spin][ik][band]`. -/
structure EbandsData where
  structure_ : Int
  kpoints : List Kpoint
  nsppol : Int
  nspden : Int
  nspinor : Int
  nband : Nat
  eigens : List (List (List Rat))
deriving DecidableEq, Repr

/-- Contents of one DDK.nc file, as read by `DdkFile.__init__` and
`DdkReader`: the `kptopt` and `pertcase` header variables, the electron
bands, and the raw `h1_matrix` variable with shape
(nsppol, nkpt, mband, mband, 2), stored here as (re, im) pairs. -/
structure DdkFileData where
  kptopt : Int
  pertcase : Int
  ebands : EbandsData
  h1_matrix : List (List (List (List (Rat × Rat))))
deriving DecidableEq, Repr

/-- `DdkFile.__init__`: `self.idir = ((pertcase - 1) % 3) + 1`.
Python's `%` with a positive modulus agrees with `Int.emod`. -/
def DdkFileData.idir (f : DdkFileData) : Int :=
  (f.pertcase - 1) % 3 + 1

/-- `DdkFile.__init__`: `self.ipert = (pertcase - self.idir) // 3 + 1`.
Python's `//` is floor division, i.e. `Int.fdiv`. -/
def DdkFileData.ipert (f : DdkFileData) : Int :=
  (f.pertcase - f.idir).fdiv 3 + 1

/-- `DdksAnalyzer.__init__`, lines 25-28: start from `ddks = 3 * [None]`
and store each opened file at slot `idir - 1` (a later file with the same
`idir` overwrites an earlier one, exactly as the python loop does). -/
def fillDdks (files : List DdkFileData) : List (Option DdkFileData) :=
  files.foldl (fun acc f => acc.set (f.idir - 1).toNat (some f)) [none, none, none]

/-- `DdksAnalyzer.__init__`, lines 32-43: the list of error messages
accumulated by the consistency check, comparing every file in `rest`
(`ddks[1:]`) against `d0` (`ddks[0]`), in source order: structure, kptopt,
k-point list, then nsppol, nspden, nspinor. -/
def consistencyErrors (d0 : DdkFileData) (rest : List DdkFileData) : List String :=
  (if rest.any (fun d => d.ebands.structure_ != d0.ebands.structure_) then
      ["Structures in DDK files do not agree with each other."] else []) ++
  (if rest.any (fun d => d.kptopt != d0.kptopt) then
      ["Found different values of kptopt."] else []) ++
  (if rest.any (fun d => d.ebands.kpoints != d0.ebands.kpoints) then
      ["Found different list of k-kpoints."] else []) ++
  (if rest.any (fun d => d.ebands.nsppol != d0.ebands.nsppol) then
      ["Found different value of nsppol"] else []) ++
  (if rest.any (fun d => d.ebands.nspden != d0.ebands.nspden) then
      ["Found different value of nspden"] else []) ++
  (if rest.any (fun d => d.ebands.nspinor != d0.ebands.nspinor) then
      ["Found different value of nspinor"] else [])

/-- The analyzer object produced by a successful `DdksAnalyzer.__init__`:
the three files in `idir` order and the dimensions copied from
`ddks[0].ebands` (lines 47-54). -/
structure DdksAnalyzer where
  ddks : List DdkFileData
  nsppol : Int
  nspinor : Int
  nspden : Int
  nband : Nat
  kpoints : List Kpoint
  nkpt : Nat
  weights : List Rat
  eigens : List (List (List Rat))
deriving DecidableEq, Repr

/-- `DdksAnalyzer.__init__`, lines 29-54, after the slots have been filled:
raise if a slot is still `None`, then run the consistency check and either
raise `ValueError("\n".join(errors))` or build the analyzer from
`ddks[0].ebands`. -/
def mkFromSlots (slots : List (Option DdkFileData)) : Except String DdksAnalyzer :=
  match slots with
  | [some d1, some d2, some d3] =>
    let errors := consistencyErrors d1 [d2, d3]
    if errors.isEmpty then
      let eb0 := d1.ebands
      Except.ok
        { ddks := [d1, d2, d3]
          nsppol := eb0.nsppol
          nspinor := eb0.nspinor
          nspden := eb0.nspden
          nband := eb0.nband
          kpoints := eb0.kpoints
          nkpt := eb0.kpoints.length
          weights := eb0.kpoints.map (fun kp => kp.weight)
          eigens := eb0.eigens }
    else Except.error (String.intercalate "\n" errors)
  | _ => Except.error "Cannot find 3 DDK files with different idir."

/-- `DdksAnalyzer.__init__` as a whole: fill the three `idir` slots from
the input files, then validate and build (the file-opening I/O is modelled
by taking the already-read file contents as input). -/
def mkDdksAnalyzer (files : List DdkFileData) : Except String DdksAnalyzer :=
  mkFromSlots (fillDdks files)

/-- The six agreement conditions that the consistency check of
`DdksAnalyzer.__init__` enforces between a file `d` and the reference file
`d0`: identical structure, kptopt, k-point list, nsppol, nspden, nspinor. -/
def agreeAll (d0 d : DdkFileData) : Prop :=
  d.ebands.structure_ = d0.ebands.structure_ ∧
  d.kptopt = d0.kptopt ∧
  d.ebands.kpoints = d0.ebands.kpoints ∧
  d.ebands.nsppol = d0.ebands.nsppol ∧
  d.ebands.nspden = d0.ebands.nspden ∧
  d.ebands.nspinor = d0.ebands.nspinor

instance (d0 d : DdkFileData) : Decidable (agreeAll d0 d) := by
  unfold agreeAll; infer_instance

/-- `DdkReader.__init__`, lines 276-282: read `nband_sk` (one band count
per (spin, k-point)), raise `NotImplementedError` when any entry differs
from `nband_sk[0, 0]`, and otherwise record the common count as `mband`.
(The numpy array has shape (nsppol, nkpt) with both dimensions positive;
`headD` mirrors the `[0, 0]` lookup.  The python message embeds
`str(nband_sk)`; we embed the Lean rendering of the list instead.) -/
def mkDdkReader (nband_sk : List (List Int)) : Except String Int :=
  let first := (nband_sk.headD []).headD 0
  if nband_sk.any (fun row => row.any (fun n => n != first)) then
    Except.error ("Found different number of bands per k-point, spin.\nnband_sk: " ++
      toString nband_sk ++ "\n")
  else Except.ok first

/-- `DdkReader.read_ddk_diagonal`, lines 284-292.  The body executes
`np.diagonal(var[:, :, :, :, :], axis1=2, axis=3)`, but `numpy.diagonal`
has no keyword parameter named `axis` (the second axis is `axis2`), so the
call raises `TypeError` before any diagonal is computed.  We model the
read of the `h1_matrix` variable followed by that unconditional failure. -/
def read_ddk_diagonal (f : DdkFileData) : Except String (List (List (List Rat))) :=
  let _var := f.h1_matrix
  Except.error "TypeError: diagonal() got an unexpected keyword argument axis"

/-- `DdksAnalyzer.v_skb`, lines 74-79: allocate a (nsppol, nkpt, nband, 3)
array and fill `v_skb[:, :, :, i]` with `ddks[i].reader.read_ddk_diagonal()`.
Since every `read_ddk_diagonal` call raises (see above), the first
iteration of the loop already propagates the error. -/
def v_skb (a : DdksAnalyzer) : Except String (List (List (List (List Rat)))) := do
  let diags ← a.ddks.mapM read_ddk_diagonal
  let d0 := diags.headD []
  pure <| d0.mapIdx fun s row =>
    row.mapIdx fun k bands =>
      bands.mapIdx fun b _ =>
        diags.map fun d => ((d.getD s []).getD k []).getD b 0

/-- The namedtuple `dict2namedtuple(edos=..., vdos=..., vdos_spin=...)`
that `DdksAnalyzer.get_doses` is documented to return: the energy mesh of
the electron DOS, the total velocity-weighted DOS and its per-spin parts. -/
structure GetDosesResult where
  mesh : List Rat
  vdos : List Rat
  vdos_spin : List (List Rat)
deriving DecidableEq, Repr

/-- `DdksAnalyzer.get_doses`, lines 83-112.  The python body first calls
`self.kpoints.check_weights()` (external code, modelled by the
`checkWeightsOk` oracle: it raises when the k-point weights are not
normalized) and `self.ddks[0].ebands.get_edos(...)` (external code).  The
very next statement, `values = np.zeros((self.nsppol, nw))` at line 96,
refers to the name `nw`, which is unbound in the function body (as is
`vmod` at line 105), so every call that passes the weight check raises
`NameError` before a single DOS value is produced — regardless of the
`method`, `step` and `width` arguments. -/
def get_doses (a : DdksAnalyzer) (checkWeightsOk : Bool) (method : String)
    (step width : Rat) : Except String GetDosesResult :=
  if !checkWeightsOk then
    Except.error "ValueError: k-point weights do not sum up to one"
  else
    Except.error "NameError: name nw is not defined"

/-- Eigenvalue lookup `eigens[spin][ik][band]` (total, with default 0
outside the stored ranges; all uses below stay in range). -/
def eigenAt (eigens : List (List (List Rat))) (spin k b : Nat) : Rat :=
  ((eigens.getD spin []).getD k []).getD b 0

/-- Modelled from the spec: the clustering kernel of
`ElectronBands.degeneracies` (defined in `abipy/electrons/ebands.py`,
which is not among the sources; only its test is).  Following the spec
("degenerate-state clustering": partition the requested bands into
clusters of states with equal eigenvalues), consecutive (energy, band)
pairs with the same energy are merged into one cluster carrying that
energy. -/
def clusterBands : List (Rat × Nat) → List (Rat × List Nat)
  | [] => []
  | (e, b) :: rest =>
    match clusterBands rest with
    | [] => [(e, [b])]
    | (e2, bs) :: tail =>
      if e = e2 then (e, b :: bs) :: tail else (e, [b]) :: (e2, bs) :: tail

/-- Modelled from the spec: `ElectronBands.degeneracies(spin, kpoint,
bands_range)` — extract the eigenvalues of the requested bands at the
given (spin, k-point) and cluster bands with equal eigenvalues, returning
(energy, band-indices) pairs. -/
def degeneracies (eigens : List (List (List Rat))) (spin k : Nat)
    (bands_range : List Nat) : List (Rat × List Nat) :=
  clusterBands (bands_range.map (fun b => (eigenAt eigens spin k b, b)))

/-! ### Helper lemmas about the slot-filling loop -/

/-- The file stored at the slot of direction `d`, if any: the python loop
assigns left to right, so the last file with `idir = d` wins. -/
def lastWithIdir (files : List DdkFileData) (d : Int) : Option DdkFileData :=
  files.reverse.find? (fun f => f.idir == d)

/-- Combine a candidate slot value with a fallback: a stored file shadows
whatever was in the slot before. -/
def slotFill (x fallback : Option DdkFileData) : Option DdkFileData :=
  match x with
  | some f => some f
  | none => fallback

theorem slotFill_none (a : Option DdkFileData) : slotFill none a = a := rfl

theorem slotFill_some (f : DdkFileData) (a : Option DdkFileData) :
    slotFill (some f) a = some f := rfl

theorem idir_cases (f : DdkFileData) : f.idir = 1 ∨ f.idir = 2 ∨ f.idir = 3 := by
  have h1 : 0 ≤ (f.pertcase - 1) % 3 := Int.emod_nonneg _ (by norm_num)
  have h2 : (f.pertcase - 1) % 3 < 3 := Int.emod_lt_of_pos _ (by norm_num)
  unfold DdkFileData.idir
  omega

theorem lastWithIdir_cons (f : DdkFileData) (rest : List DdkFileData) (d : Int) :
    lastWithIdir (f :: rest) d =
      slotFill (lastWithIdir rest d) (if f.idir == d then some f else none) := by
  unfold lastWithIdir
  rw [List.reverse_cons, List.find?_append]
  cases h : (rest.reverse.find? fun g => g.idir == d) <;>
    cases hb : (f.idir == d) <;>
    simp [slotFill, List.find?, hb]

theorem set3_zero (a1 a2 a3 x : Option DdkFileData) :
    [a1, a2, a3].set 0 x = [x, a2, a3] := rfl

theorem set3_one (a1 a2 a3 x : Option DdkFileData) :
    [a1, a2, a3].set 1 x = [a1, x, a3] := rfl

theorem set3_two (a1 a2 a3 x : Option DdkFileData) :
    [a1, a2, a3].set 2 x = [a1, a2, x] := rfl

theorem fill_aux (files : List DdkFileData) :
    ∀ a1 a2 a3 : Option DdkFileData,
      files.foldl (fun acc f => acc.set (f.idir - 1).toNat (some f)) [a1, a2, a3] =
        [slotFill (lastWithIdir files 1) a1, slotFill (lastWithIdir files 2) a2,
          slotFill (lastWithIdir files 3) a3] := by
  induction files with
  | nil => intro a1 a2 a3; simp [lastWithIdir, slotFill]
  | cons f rest ih =>
    intro a1 a2 a3
    rw [List.foldl_cons]
    rcases idir_cases f with h | h | h
    · rw [h, show ((1 : Int) - 1).toNat = 0 by decide, set3_zero, ih]
      simp only [lastWithIdir_cons, h]
      cases lastWithIdir rest 1 <;> cases lastWithIdir rest 2 <;>
        cases lastWithIdir rest 3 <;> simp [slotFill]
    · rw [h, show ((2 : Int) - 1).toNat = 1 by decide, set3_one, ih]
      simp only [lastWithIdir_cons, h]
      cases lastWithIdir rest 1 <;> cases lastWithIdir rest 2 <;>
        cases lastWithIdir rest 3 <;> simp [slotFill]
    · rw [h, show ((3 : Int) - 1).toNat = 2 by decide, set3_two, ih]
      simp only [lastWithIdir_cons, h]
      cases lastWithIdir rest 1 <;> cases lastWithIdir rest 2 <;>
        cases lastWithIdir rest 3 <;> simp [slotFill]

theorem fillDdks_eq (files : List DdkFileData) :
    fillDdks files =
      [lastWithIdir files 1, lastWithIdir files 2, lastWithIdir files 3] := by
  unfold fillDdks
  rw [fill_aux]
  cases h1 : lastWithIdir files 1 <;> cases h2 : lastWithIdir files 2 <;>
    cases h3 : lastWithIdir files 3 <;> simp [slotFill]

theorem lastWithIdir_isSome (files : List DdkFileData) (d : Int) :
    (lastWithIdir files d).isSome ↔ ∃ f ∈ files, f.idir = d := by
  unfold lastWithIdir
  rw [List.find?_isSome]
  constructor
  · rintro ⟨f, hf, hp⟩
    exact ⟨f, List.mem_reverse.mp hf, by simpa using hp⟩
  · rintro ⟨f, hf, hp⟩
    exact ⟨f, List.mem_reverse.mpr hf, by simpa using hp⟩

theorem lastWithIdir_mem (files : List DdkFileData) (d : Int) (f : DdkFileData)
    (h : lastWithIdir files d = some f) : f ∈ files ∧ f.idir = d := by
  unfold lastWithIdir at h
  refine ⟨List.mem_reverse.mp (List.mem_of_find?_eq_some h), ?_⟩
  simpa using List.find?_some h

/-! ### C9: decomposition of `pertcase` into `(idir, ipert)` -/

/-- C9: for every positive integer `pertcase` read from a DDK file,
`DdkFile.__init__` derives `idir` and `ipert` such that `idir` is in
`{1, 2, 3}` and the decomposition round-trips:
`idir + 3 * (ipert - 1) = pertcase`. -/
theorem C9_pertcase_decomposition (f : DdkFileData) (h : 1 ≤ f.pertcase) :
    (f.idir = 1 ∨ f.idir = 2 ∨ f.idir = 3) ∧
      f.idir + 3 * (f.ipert - 1) = f.pertcase := by
  refine ⟨idir_cases f, ?_⟩
  unfold DdkFileData.ipert DdkFileData.idir
  have h1 : 0 ≤ (f.pertcase - 1) % 3 := Int.emod_nonneg _ (by norm_num)
  have h2 : (f.pertcase - 1) % 3 < 3 := Int.emod_lt_of_pos _ (by norm_num)
  have hkey : f.pertcase - ((f.pertcase - 1) % 3 + 1) = 3 * ((f.pertcase - 1) / 3) := by
    omega
  rw [hkey, Int.fdiv_eq_ediv _ (by norm_num : (0 : Int) ≤ 3)]
  omega

/-! ### C10: uniform band count in `DdkReader.__init__` -/

/-- C10: `DdkReader` construction succeeds only when the number of bands is
the same for every (spin, k-point) pair: if any entry of `nband_sk` differs
from `nband_sk[0, 0]` it raises `NotImplementedError`, and otherwise
`mband` is set to that common band count. -/
theorem C10_nband_sk_uniform (nband_sk : List (List Int)) (first : Int)
    (hfirst : first = (nband_sk.headD []).headD 0) :
    (mkDdkReader nband_sk = Except.ok first ↔
      ∀ row ∈ nband_sk, ∀ n ∈ row, n = first) ∧
    ((∃ row ∈ nband_sk, ∃ n ∈ row, n ≠ first) →
      mkDdkReader nband_sk =
        Except.error ("Found different number of bands per k-point, spin.\nnband_sk: " ++
          toString nband_sk ++ "\n")) := by
  have hiff : (nband_sk.any (fun row => row.any (fun n => n != first)) = true) ↔
      ∃ row ∈ nband_sk, ∃ n ∈ row, n ≠ first := by
    simp [List.any_eq_true, bne_iff_ne]
  by_cases hany : ∃ row ∈ nband_sk, ∃ n ∈ row, n ≠ first
  · refine ⟨?_, fun _ => ?_⟩
    · simp only [mkDdkReader, ← hfirst, if_pos (hiff.mpr hany)]
      constructor
      · intro habs; exact absurd habs (by simp)
      · intro hall
        exfalso
        obtain ⟨row, hrow, n, hn, hne⟩ := hany
        exact hne (hall row hrow n hn)
    · simp only [mkDdkReader, ← hfirst, if_pos (hiff.mpr hany)]
  · have hb : (nband_sk.any (fun row => row.any (fun n => n != first))) = false := by
      cases hx : (nband_sk.any fun row => row.any fun n => n != first)
      · rfl
      · exact absurd (hiff.mp hx) hany
    refine ⟨?_, fun hc => absurd hc hany⟩
    constructor
    · intro _ row hrow n hn
      by_contra hne
      exact hany ⟨row, hrow, n, hn, hne⟩
    · intro _
      simp only [mkDdkReader, ← hfirst, hb]
      rw [if_neg (by simp)]

/-! ### C4: all three reduced directions are required -/

/-- C4: for every list of input files, `DdksAnalyzer` construction requires
derivatives along all 3 reduced directions: if the opened files do not
provide one file for each `idir` in {1, 2, 3}, the constructor raises
`ValueError("Cannot find 3 DDK files with different idir.")`. -/
theorem C4_missing_idir_error (files : List DdkFileData)
    (h : ¬ ((∃ f ∈ files, f.idir = 1) ∧ (∃ f ∈ files, f.idir = 2) ∧
        (∃ f ∈ files, f.idir = 3))) :
    mkDdksAnalyzer files =
      Except.error "Cannot find 3 DDK files with different idir." := by
  unfold mkDdksAnalyzer
  rw [fillDdks_eq]
  have h1 := lastWithIdir_isSome files 1
  have h2 := lastWithIdir_isSome files 2
  have h3 := lastWithIdir_isSome files 3
  cases hx1 : lastWithIdir files 1 with
  | none =>
    cases hx2 : lastWithIdir files 2 <;> cases hx3 : lastWithIdir files 3 <;>
      simp [mkFromSlots]
  | some f1 =>
    cases hx2 : lastWithIdir files 2 with
    | none => cases hx3 : lastWithIdir files 3 <;> simp [mkFromSlots]
    | some f2 =>
      cases hx3 : lastWithIdir files 3 with
      | none => simp [mkFromSlots]
      | some f3 =>
        exact absurd ⟨h1.mp (by rw [hx1]; rfl), h2.mp (by rw [hx2]; rfl),
          h3.mp (by rw [hx3]; rfl)⟩ h

/-! ### C2: the consistency check of `DdksAnalyzer.__init__` -/

theorem mem_ite_singleton (a x : String) (c : Bool) :
    (a ∈ if c then [x] else []) ↔ (c = true ∧ a = x) := by
  cases c <;> simp

theorem ite_singleton_eq_nil (c : Bool) (x : String) :
    ((if c then [x] else []) = []) ↔ c = false := by
  cases c <;> simp

theorem consistencyErrors_nil_iff (d1 d2 d3 : DdkFileData) :
    consistencyErrors d1 [d2, d3] = [] ↔ (agreeAll d1 d2 ∧ agreeAll d1 d3) := by
  simp only [consistencyErrors, agreeAll, List.append_eq_nil, ite_singleton_eq_nil,
    List.any_cons, List.any_nil, Bool.or_eq_false_iff, bne_eq_false_iff_eq]
  tauto

/-- C2: for every list of DDK files that does fill the three `idir` slots,
construction succeeds iff all three files share an identical structure,
`kptopt`, k-point list, `nsppol`, `nspden` and `nspinor`; when any of the
checks fails, the constructor raises a `ValueError` whose message joins
(with newlines) exactly one line for every failed check, and no analyzer
is produced. -/
theorem C2_consistency_check (files : List DdkFileData) (d1 d2 d3 : DdkFileData)
    (hfill : fillDdks files = [some d1, some d2, some d3]) :
    ((mkDdksAnalyzer files).isOk ↔ (agreeAll d1 d2 ∧ agreeAll d1 d3)) ∧
    (¬ (agreeAll d1 d2 ∧ agreeAll d1 d3) →
      mkDdksAnalyzer files =
        Except.error (String.intercalate "\n" (consistencyErrors d1 [d2, d3]))) ∧
    (("Structures in DDK files do not agree with each other." ∈
        consistencyErrors d1 [d2, d3]) ↔
      ¬ (d2.ebands.structure_ = d1.ebands.structure_ ∧
         d3.ebands.structure_ = d1.ebands.structure_)) ∧
    (("Found different values of kptopt." ∈ consistencyErrors d1 [d2, d3]) ↔
      ¬ (d2.kptopt = d1.kptopt ∧ d3.kptopt = d1.kptopt)) ∧
    (("Found different list of k-kpoints." ∈ consistencyErrors d1 [d2, d3]) ↔
      ¬ (d2.ebands.kpoints = d1.ebands.kpoints ∧
         d3.ebands.kpoints = d1.ebands.kpoints)) ∧
    (("Found different value of nsppol" ∈ consistencyErrors d1 [d2, d3]) ↔
      ¬ (d2.ebands.nsppol = d1.ebands.nsppol ∧ d3.ebands.nsppol = d1.ebands.nsppol)) ∧
    (("Found different value of nspden" ∈ consistencyErrors d1 [d2, d3]) ↔
      ¬ (d2.ebands.nspden = d1.ebands.nspden ∧ d3.ebands.nspden = d1.ebands.nspden)) ∧
    (("Found different value of nspinor" ∈ consistencyErrors d1 [d2, d3]) ↔
      ¬ (d2.ebands.nspinor = d1.ebands.nspinor ∧
         d3.ebands.nspinor = d1.ebands.nspinor)) := by
  have hmk : mkDdksAnalyzer files = mkFromSlots [some d1, some d2, some d3] := by
    unfold mkDdksAnalyzer; rw [hfill]
  refine ⟨?_, ?_, ?_, ?_, ?_, ?_, ?_, ?_⟩
  · rw [hmk]
    by_cases hag : agreeAll d1 d2 ∧ agreeAll d1 d3
    · have hnil : consistencyErrors d1 [d2, d3] = [] :=
        (consistencyErrors_nil_iff d1 d2 d3).mpr hag
      simp [mkFromSlots, hnil, hag]
      rfl
    · have hnonnil : consistencyErrors d1 [d2, d3] ≠ [] := by
        intro hc
        exact hag ((consistencyErrors_nil_iff d1 d2 d3).mp hc)
      have hne : (consistencyErrors d1 [d2, d3]).isEmpty = false := by
        cases hc : consistencyErrors d1 [d2, d3] with
        | nil => exact absurd hc hnonnil
        | cons a l => rfl
      simp [mkFromSlots, hne, hag]
      rfl
  · intro hag
    rw [hmk]
    have hnonnil : consistencyErrors d1 [d2, d3] ≠ [] := by
      intro hc
      exact hag ((consistencyErrors_nil_iff d1 d2 d3).mp hc)
    have hne : (consistencyErrors d1 [d2, d3]).isEmpty = false := by
      cases hc : consistencyErrors d1 [d2, d3] with
      | nil => exact absurd hc hnonnil
      | cons a l => rfl
    simp [mkFromSlots, hne]
  · simp +decide [consistencyErrors, List.mem_append, mem_ite_singleton,
      List.any_cons, List.any_nil, bne_iff_ne]
    tauto
  · simp +decide [consistencyErrors, List.mem_append, mem_ite_singleton,
      List.any_cons, List.any_nil, bne_iff_ne]
    tauto
  · simp +decide [consistencyErrors, List.mem_append, mem_ite_singleton,
      List.any_cons, List.any_nil, bne_iff_ne]
    tauto
  · simp +decide [consistencyErrors, List.mem_append, mem_ite_singleton,
      List.any_cons, List.any_nil, bne_iff_ne]
    tauto
  · simp +decide [consistencyErrors, List.mem_append, mem_ite_singleton,
      List.any_cons, List.any_nil, bne_iff_ne]
    tauto
  · simp +decide [consistencyErrors, List.mem_append, mem_ite_singleton,
      List.any_cons, List.any_nil, bne_iff_ne]
    tauto

/-! ### C8: the constructor is invariant under permutation of the paths -/

theorem lastWithIdir_perm (l l2 : List DdkFileData) (hp : l.Perm l2)
    (huniq : ∀ f ∈ l, ∀ g ∈ l, f.idir = g.idir → f = g) (d : Int) :
    lastWithIdir l d = lastWithIdir l2 d := by
  by_cases hex : ∃ f ∈ l, f.idir = d
  · have h1 : (lastWithIdir l d).isSome := (lastWithIdir_isSome l d).mpr hex
    have h2 : (lastWithIdir l2 d).isSome := (lastWithIdir_isSome l2 d).mpr
      (by obtain ⟨f, hf, hfd⟩ := hex; exact ⟨f, hp.mem_iff.mp hf, hfd⟩)
    obtain ⟨f, hf⟩ := Option.isSome_iff_exists.mp h1
    obtain ⟨g, hg⟩ := Option.isSome_iff_exists.mp h2
    obtain ⟨hfm, hfd⟩ := lastWithIdir_mem l d f hf
    obtain ⟨hgm, hgd⟩ := lastWithIdir_mem l2 d g hg
    rw [hf, hg]
    exact congrArg some (huniq f hfm g (hp.mem_iff.mpr hgm) (by rw [hfd, hgd]))
  · have h1 : lastWithIdir l d = none := by
      unfold lastWithIdir
      rw [List.find?_eq_none]
      intro x hx
      simp only [beq_iff_eq]
      exact fun hxd => hex ⟨x, List.mem_reverse.mp hx, hxd⟩
    have h2 : lastWithIdir l2 d = none := by
      unfold lastWithIdir
      rw [List.find?_eq_none]
      intro x hx
      simp only [beq_iff_eq]
      exact fun hxd => hex ⟨x, hp.mem_iff.mpr (List.mem_reverse.mp hx), hxd⟩
    rw [h1, h2]

/-- C8: for files with pairwise distinct `idir` values (in particular for
every set of three valid DDK files), the analyzer produced is invariant
under permutation of the input `ddk_paths` list: each file lands in the
slot determined by its own `idir`, so the `ddks` assignment and the whole
construction result (all derived dimensions included) agree for every
ordering of the same paths. -/
theorem C8_perm_invariance (l l2 : List DdkFileData) (hp : l.Perm l2)
    (hd : l.Pairwise (fun a b => a.idir ≠ b.idir)) :
    fillDdks l = fillDdks l2 ∧ mkDdksAnalyzer l = mkDdksAnalyzer l2 := by
  have huniq : ∀ f ∈ l, ∀ g ∈ l, f.idir = g.idir → f = g := by
    intro f hf g hg hfg
    by_contra hne
    exact List.Pairwise.forall (fun _ _ h => Ne.symm h) hd hf hg hne hfg
  have hfill : fillDdks l = fillDdks l2 := by
    rw [fillDdks_eq, fillDdks_eq, lastWithIdir_perm l l2 hp huniq 1,
      lastWithIdir_perm l l2 hp huniq 2, lastWithIdir_perm l l2 hp huniq 3]
  exact ⟨hfill, by unfold mkDdksAnalyzer; rw [hfill]⟩

/-! ### C7: degenerate-state clustering -/

theorem clusterBands_cons (e : Rat) (b : Nat) (rest : List (Rat × Nat)) :
    clusterBands ((e, b) :: rest) =
      match clusterBands rest with
      | [] => [(e, [b])]
      | (e2, bs) :: tail =>
        if e = e2 then (e, b :: bs) :: tail else (e, [b]) :: (e2, bs) :: tail := rfl

theorem clusterBands_cons_nil (e : Rat) (b : Nat) {rest : List (Rat × Nat)}
    (hc : clusterBands rest = []) :
    clusterBands ((e, b) :: rest) = [(e, [b])] := by
  rw [clusterBands_cons, hc]

theorem clusterBands_cons_pos (e : Rat) (b : Nat) {rest : List (Rat × Nat)}
    {e2 : Rat} {bs : List Nat} {tail : List (Rat × List Nat)}
    (hc : clusterBands rest = (e2, bs) :: tail) (he : e = e2) :
    clusterBands ((e, b) :: rest) = (e, b :: bs) :: tail := by
  rw [clusterBands_cons, hc]
  show (if e = e2 then (e, b :: bs) :: tail else (e, [b]) :: (e2, bs) :: tail) = _
  exact if_pos he

theorem clusterBands_cons_neg (e : Rat) (b : Nat) {rest : List (Rat × Nat)}
    {e2 : Rat} {bs : List Nat} {tail : List (Rat × List Nat)}
    (hc : clusterBands rest = (e2, bs) :: tail) (he : ¬ e = e2) :
    clusterBands ((e, b) :: rest) = (e, [b]) :: (e2, bs) :: tail := by
  rw [clusterBands_cons, hc]
  show (if e = e2 then (e, b :: bs) :: tail else (e, [b]) :: (e2, bs) :: tail) = _
  exact if_neg he

theorem clusterBands_flatten (ps : List (Rat × Nat)) :
    ((clusterBands ps).map Prod.snd).flatten = ps.map Prod.snd := by
  induction ps with
  | nil => rfl
  | cons p rest ih =>
    obtain ⟨e, b⟩ := p
    cases hc : clusterBands rest with
    | nil =>
      rw [hc] at ih
      simp only [List.map_nil, List.flatten_nil] at ih
      rw [clusterBands_cons_nil e b hc]
      simp [← ih]
    | cons c tail =>
      obtain ⟨e2, bs⟩ := c
      rw [hc] at ih
      by_cases he : e = e2
      · rw [clusterBands_cons_pos e b hc he]
        simp only [List.map_cons, List.flatten_cons] at ih ⊢
        rw [List.cons_append, ih]
      · rw [clusterBands_cons_neg e b hc he]
        simp only [List.map_cons, List.flatten_cons] at ih ⊢
        rw [List.singleton_append, ih]

theorem clusterBands_mem (ps : List (Rat × Nat)) :
    ∀ c ∈ clusterBands ps, ∀ b ∈ c.2, (c.1, b) ∈ ps := by
  induction ps with
  | nil => intro c hc; simp [clusterBands] at hc
  | cons p rest ih =>
    obtain ⟨e, b0⟩ := p
    intro c hc bb hbb
    cases hcr : clusterBands rest with
    | nil =>
      rw [clusterBands_cons_nil e b0 hcr] at hc
      simp only [List.mem_singleton] at hc
      subst hc
      simp only [List.mem_singleton] at hbb
      subst hbb
      exact List.mem_cons_self _ _
    | cons c2 tail =>
      obtain ⟨e2, bs⟩ := c2
      by_cases he : e = e2
      · rw [clusterBands_cons_pos e b0 hcr he] at hc
        rcases List.mem_cons.mp hc with hceq | hctail
        · subst hceq
          rcases List.mem_cons.mp hbb with hbeq | hbs
          · subst hbeq; exact List.mem_cons_self _ _
          · have hin := ih (e2, bs) (by rw [hcr]; exact List.mem_cons_self _ _) bb hbs
            rw [show ((e, b0 :: bs) : Rat × List Nat).1 = e2 from he]
            exact List.mem_cons_of_mem _ hin
        · exact List.mem_cons_of_mem _
            (ih c (by rw [hcr]; exact List.mem_cons_of_mem _ hctail) bb hbb)
      · rw [clusterBands_cons_neg e b0 hcr he] at hc
        rcases List.mem_cons.mp hc with hceq | hctail
        · subst hceq
          simp only [List.mem_singleton] at hbb
          subst hbb
          exact List.mem_cons_self _ _
        · exact List.mem_cons_of_mem _ (ih c (by rw [hcr]; exact hctail) bb hbb)

theorem clusterBands_headFst (q : Rat × Nat) (rest : List (Rat × Nat)) :
    ((clusterBands (q :: rest)).map Prod.fst).head? = some q.1 := by
  obtain ⟨e, b⟩ := q
  cases hc : clusterBands rest with
  | nil => rw [clusterBands_cons_nil e b hc]; rfl
  | cons c tail =>
    obtain ⟨e2, bs⟩ := c
    by_cases he : e = e2
    · rw [clusterBands_cons_pos e b hc he]; rfl
    · rw [clusterBands_cons_neg e b hc he]; rfl

theorem clusterBands_chain_ne (ps : List (Rat × Nat)) :
    (clusterBands ps).Chain' (fun c c2 => c.1 ≠ c2.1) := by
  induction ps with
  | nil => simp [clusterBands]
  | cons p rest ih =>
    obtain ⟨e, b⟩ := p
    cases hc : clusterBands rest with
    | nil => rw [clusterBands_cons_nil e b hc]; simp
    | cons c tail =>
      obtain ⟨e2, bs⟩ := c
      rw [hc] at ih
      by_cases he : e = e2
      · rw [clusterBands_cons_pos e b hc he]
        subst he
        rcases List.chain'_cons'.mp ih with ⟨hhd, htl⟩
        exact List.chain'_cons'.mpr ⟨hhd, htl⟩
      · rw [clusterBands_cons_neg e b hc he]
        exact List.chain'_cons.mpr ⟨he, ih⟩

theorem clusterBands_chain_le (ps : List (Rat × Nat))
    (hs : ps.Chain' (fun x y => x.1 ≤ y.1)) :
    (clusterBands ps).Chain' (fun c c2 => c.1 ≤ c2.1) := by
  induction ps with
  | nil => simp [clusterBands]
  | cons p rest ih =>
    obtain ⟨e, b⟩ := p
    have hhd := (List.chain'_cons'.mp hs).1
    have hs2 := (List.chain'_cons'.mp hs).2
    cases hc : clusterBands rest with
    | nil => rw [clusterBands_cons_nil e b hc]; simp
    | cons c tail =>
      obtain ⟨e2, bs⟩ := c
      have ih2 := ih hs2
      rw [hc] at ih2
      by_cases he : e = e2
      · rw [clusterBands_cons_pos e b hc he]
        subst he
        rcases List.chain'_cons'.mp ih2 with ⟨h1, h2⟩
        exact List.chain'_cons'.mpr ⟨h1, h2⟩
      · rw [clusterBands_cons_neg e b hc he]
        refine List.chain'_cons.mpr ⟨?_, ih2⟩
        cases rest with
        | nil => rw [show clusterBands [] = [] from rfl] at hc; cases hc
        | cons q rest2 =>
          have hq := clusterBands_headFst q rest2
          rw [hc] at hq
          simp only [List.map_cons, List.head?_cons, Option.some.injEq] at hq
          have hle : e ≤ q.1 := hhd q (by simp)
          show e ≤ e2
          rw [hq]
          exact hle

theorem clusterBands_sorted_lt (ps : List (Rat × Nat))
    (hs : ps.Chain' (fun x y => x.1 ≤ y.1)) :
    ((clusterBands ps).map Prod.fst).Pairwise (· < ·) := by
  have hle := clusterBands_chain_le ps hs
  have hne := clusterBands_chain_ne ps
  have hlt : (clusterBands ps).Chain' (fun c c2 => c.1 < c2.1) := by
    rw [List.chain'_iff_get] at hle hne ⊢
    intro i hi
    exact lt_of_le_of_ne (hle i hi) (hne i hi)
  have hmap : ((clusterBands ps).map Prod.fst).Chain' (· < ·) :=
    (List.chain'_map Prod.fst).mpr hlt
  exact List.chain'_iff_pairwise.mp hmap

/-- C7: for every eigenvalue table, spin, k-point and band range whose
eigenvalues are listed in increasing (non-decreasing) order,
`degeneracies` partitions the bands of the range into clusters of
degenerate states: the clusters concatenate back to the whole range
in order (so every band lies in exactly one cluster), every band in a
cluster has exactly the cluster eigenvalue, and distinct clusters carry
strictly increasing energies. -/
theorem C7_degeneracies_partition (eigens : List (List (List Rat))) (spin k : Nat)
    (bands_range : List Nat)
    (hsorted : (bands_range.map (fun b => eigenAt eigens spin k b)).Chain' (· ≤ ·)) :
    (((degeneracies eigens spin k bands_range).map Prod.snd).flatten = bands_range) ∧
    (∀ c ∈ degeneracies eigens spin k bands_range, ∀ b ∈ c.2,
        eigenAt eigens spin k b = c.1) ∧
    (((degeneracies eigens spin k bands_range).map Prod.fst).Pairwise (· < ·)) := by
  unfold degeneracies
  refine ⟨?_, ?_, ?_⟩
  · rw [clusterBands_flatten, List.map_map]
    have hid : (Prod.snd ∘ fun b => (eigenAt eigens spin k b, b)) = id := by
      funext x; rfl
    rw [hid, List.map_id]
  · intro c hc b hb
    have hmem := clusterBands_mem _ c hc b hb
    simp only [List.mem_map] at hmem
    obtain ⟨b0, _, heq⟩ := hmem
    obtain ⟨h1, h2⟩ := Prod.mk.injEq .. |>.mp heq
    rw [← h2, ← h1]
  · apply clusterBands_sorted_lt
    rw [List.chain'_map]
    rw [List.chain'_map] at hsorted
    exact hsorted

/-! ### The broken numerical paths of `ddk.py` (C1, C3, C5, C6) -/

/-- C1: `get_doses` never returns per-spin DOS values.  For every analyzer
and every `method`, `step` and `width`, once the external k-point weight
check passes, the body raises `NameError` at
`values = np.zeros((self.nsppol, nw))` — the names `nw` and `vmod` are
unbound in the function — so the nested (spin, k-point, band) Gaussian
accumulation claimed by the spec is never performed. -/
theorem C1_get_doses_raises_nameerror (a : DdksAnalyzer) (method : String)
    (step width : Rat) :
    get_doses a true method step width =
      Except.error "NameError: name nw is not defined" := rfl

/-- C5: `v_skb` never yields the claimed group-velocity array.  For every
analyzer holding at least one DDK file, the first
`reader.read_ddk_diagonal()` call raises `TypeError` (the keyword `axis`
passed to `np.diagonal` does not exist), and the error propagates. -/
theorem C5_v_skb_raises_typeerror (a : DdksAnalyzer) (d : DdkFileData)
    (rest : List DdkFileData) (h : a.ddks = d :: rest) :
    v_skb a =
      Except.error "TypeError: diagonal() got an unexpected keyword argument axis" := by
  unfold v_skb
  rw [h]
  rfl

/-! ### Concrete data for the witnesses -/

/-- Example electron-band metadata shared by the concrete witnesses:
one k-point of weight 1, one spin, two bands. -/
def exEbands : EbandsData :=
  { structure_ := 7
    kpoints := [{ frac_coords := (0, 0, 0), weight := 1 }]
    nsppol := 1
    nspden := 1
    nspinor := 1
    nband := 2
    eigens := [[[-1, 2]]] }

/-- A DDK file with `pertcase = 1`, i.e. derivative direction `idir = 1`. -/
def exF1 : DdkFileData :=
  { kptopt := 2, pertcase := 1, ebands := exEbands, h1_matrix := [] }

/-- A DDK file with `pertcase = 2`, i.e. `idir = 2`. -/
def exF2 : DdkFileData :=
  { kptopt := 2, pertcase := 2, ebands := exEbands, h1_matrix := [] }

/-- A DDK file with `pertcase = 3`, i.e. `idir = 3`. -/
def exF3 : DdkFileData :=
  { kptopt := 2, pertcase := 3, ebands := exEbands, h1_matrix := [] }

/-- A DDK file with `pertcase = 5` (decomposing as `idir = 2`,
`ipert = 2`). -/
def exPert5 : DdkFileData :=
  { kptopt := 2, pertcase := 5, ebands := exEbands, h1_matrix := [] }

/-- A second-direction DDK file disagreeing with `exF1` on `kptopt` and on
`nsppol`, used to exercise the failing consistency checks. -/
def exF2bad : DdkFileData :=
  { kptopt := 3, pertcase := 2
    ebands := { exEbands with nsppol := 2 }
    h1_matrix := [] }

/-- The analyzer built from `[exF1, exF2, exF3]` (all checks pass). -/
def exAnalyzer : DdksAnalyzer :=
  { ddks := [exF1, exF2, exF3]
    nsppol := 1
    nspinor := 1
    nspden := 1
    nband := 2
    kpoints := exEbands.kpoints
    nkpt := 1
    weights := [1]
    eigens := exEbands.eigens }

/-- Spin-polarized electron-band metadata (`nsppol = 2`). -/
def exEbands2 : EbandsData :=
  { structure_ := 7
    kpoints := [{ frac_coords := (0, 0, 0), weight := 1 }]
    nsppol := 2
    nspden := 2
    nspinor := 1
    nband := 2
    eigens := [[[-1, 2]], [[-1, 2]]] }

/-- Spin-polarized DDK files for the three directions. -/
def exG1 : DdkFileData :=
  { kptopt := 2, pertcase := 1, ebands := exEbands2, h1_matrix := [] }

/-- Second spin-polarized DDK file. -/
def exG2 : DdkFileData :=
  { kptopt := 2, pertcase := 2, ebands := exEbands2, h1_matrix := [] }

/-- Third spin-polarized DDK file. -/
def exG3 : DdkFileData :=
  { kptopt := 2, pertcase := 3, ebands := exEbands2, h1_matrix := [] }

/-- The spin-polarized analyzer built from `[exG1, exG2, exG3]`. -/
def exAnalyzer2 : DdksAnalyzer :=
  { ddks := [exG1, exG2, exG3]
    nsppol := 2
    nspinor := 1
    nspden := 2
    nband := 2
    kpoints := exEbands2.kpoints
    nkpt := 1
    weights := [1]
    eigens := exEbands2.eigens }

/-- C3: on a concretely constructed analyzer, `get_doses` fails with
`NameError` before producing any electronic DOS, so there is no returned
DOS whose integral could recover the electron count. -/
theorem C3_no_dos_to_integrate :
    mkDdksAnalyzer [exF1, exF2, exF3] = Except.ok exAnalyzer ∧
    get_doses exAnalyzer true "gaussian" (1 / 10) (1 / 5) =
      Except.error "NameError: name nw is not defined" := ⟨rfl, rfl⟩

/-- C6: even for a spin-polarized analyzer (`nsppol = 2`, the branch whose
total vdos would be `vdos_spin[0] + vdos_spin[1]`), `get_doses` raises
`NameError` first, so the superposition at lines 109-112 of `ddk.py` is
never computed or returned. -/
theorem C6_vdos_never_returned :
    exAnalyzer2.nsppol = 2 ∧
    mkDdksAnalyzer [exG1, exG2, exG3] = Except.ok exAnalyzer2 ∧
    get_doses exAnalyzer2 true "gaussian" (1 / 10) (1 / 5) =
      Except.error "NameError: name nw is not defined" := ⟨rfl, rfl, rfl⟩

/-! ### Witnesses -/

/-- Witness for C5: the concrete analyzer satisfies the hypothesis and
`v_skb` raises. -/
theorem C5_witness :
    exAnalyzer.ddks = exF1 :: [exF2, exF3] ∧
    v_skb exAnalyzer =
      Except.error "TypeError: diagonal() got an unexpected keyword argument axis" :=
  ⟨rfl, C5_v_skb_raises_typeerror exAnalyzer exF1 [exF2, exF3] rfl⟩

/-- Witness for C9 at `pertcase = 5`: `idir = 2`, `ipert = 2`. -/
theorem C9_witness :
    (1 ≤ exPert5.pertcase) ∧
    ((exPert5.idir = 1 ∨ exPert5.idir = 2 ∨ exPert5.idir = 3) ∧
      exPert5.idir + 3 * (exPert5.ipert - 1) = exPert5.pertcase) :=
  ⟨by decide, C9_pertcase_decomposition exPert5 (by decide)⟩

/-- Witness for C10 on the uniform table `[[2, 2], [2, 2]]`. -/
theorem C10_witness :
    ((2 : Int) = (([[2, 2], [2, 2]] : List (List Int)).headD []).headD 0) ∧
    ((mkDdkReader [[2, 2], [2, 2]] = Except.ok 2 ↔
        ∀ row ∈ ([[2, 2], [2, 2]] : List (List Int)), ∀ n ∈ row, n = 2) ∧
      ((∃ row ∈ ([[2, 2], [2, 2]] : List (List Int)), ∃ n ∈ row, n ≠ 2) →
        mkDdkReader [[2, 2], [2, 2]] =
          Except.error ("Found different number of bands per k-point, spin.\nnband_sk: " ++
            toString ([[2, 2], [2, 2]] : List (List Int)) ++ "\n"))) :=
  ⟨by decide, C10_nband_sk_uniform [[2, 2], [2, 2]] 2 (by decide)⟩

/-- Witness for C4 on the empty input list. -/
theorem C4_witness :
    (¬ ((∃ f ∈ ([] : List DdkFileData), f.idir = 1) ∧
        (∃ f ∈ ([] : List DdkFileData), f.idir = 2) ∧
        (∃ f ∈ ([] : List DdkFileData), f.idir = 3))) ∧
    mkDdksAnalyzer [] = Except.error "Cannot find 3 DDK files with different idir." :=
  ⟨by simp, C4_missing_idir_error [] (by simp)⟩

/-- Witness for C8: a cyclic permutation of three files with distinct
`idir` values produces the same analyzer. -/
theorem C8_witness :
    (([exF1, exF2, exF3] : List DdkFileData).Perm [exF3, exF1, exF2] ∧
      ([exF1, exF2, exF3] : List DdkFileData).Pairwise (fun a b => a.idir ≠ b.idir)) ∧
    (fillDdks [exF1, exF2, exF3] = fillDdks [exF3, exF1, exF2] ∧
      mkDdksAnalyzer [exF1, exF2, exF3] = mkDdksAnalyzer [exF3, exF1, exF2]) :=
  ⟨⟨by decide, by decide⟩,
    C8_perm_invariance [exF1, exF2, exF3] [exF3, exF1, exF2] (by decide) (by decide)⟩

/-- Witness for C2 on `[exF1, exF2bad, exF3]`, where the second file
disagrees on `kptopt` and on `nsppol`: construction fails and the error
message carries exactly the two corresponding lines. -/
theorem C2_witness :
    (fillDdks [exF1, exF2bad, exF3] = [some exF1, some exF2bad, some exF3]) ∧
    (((mkDdksAnalyzer [exF1, exF2bad, exF3]).isOk ↔
        (agreeAll exF1 exF2bad ∧ agreeAll exF1 exF3)) ∧
      (¬ (agreeAll exF1 exF2bad ∧ agreeAll exF1 exF3) →
        mkDdksAnalyzer [exF1, exF2bad, exF3] =
          Except.error (String.intercalate "\n" (consistencyErrors exF1 [exF2bad, exF3]))) ∧
      (("Structures in DDK files do not agree with each other." ∈
          consistencyErrors exF1 [exF2bad, exF3]) ↔
        ¬ (exF2bad.ebands.structure_ = exF1.ebands.structure_ ∧
           exF3.ebands.structure_ = exF1.ebands.structure_)) ∧
      (("Found different values of kptopt." ∈ consistencyErrors exF1 [exF2bad, exF3]) ↔
        ¬ (exF2bad.kptopt = exF1.kptopt ∧ exF3.kptopt = exF1.kptopt)) ∧
      (("Found different list of k-kpoints." ∈ consistencyErrors exF1 [exF2bad, exF3]) ↔
        ¬ (exF2bad.ebands.kpoints = exF1.ebands.kpoints ∧
           exF3.ebands.kpoints = exF1.ebands.kpoints)) ∧
      (("Found different value of nsppol" ∈ consistencyErrors exF1 [exF2bad, exF3]) ↔
        ¬ (exF2bad.ebands.nsppol = exF1.ebands.nsppol ∧
           exF3.ebands.nsppol = exF1.ebands.nsppol)) ∧
      (("Found different value of nspden" ∈ consistencyErrors exF1 [exF2bad, exF3]) ↔
        ¬ (exF2bad.ebands.nspden = exF1.ebands.nspden ∧
           exF3.ebands.nspden = exF1.ebands.nspden)) ∧
      (("Found different value of nspinor" ∈ consistencyErrors exF1 [exF2bad, exF3]) ↔
        ¬ (exF2bad.ebands.nspinor = exF1.ebands.nspinor ∧
           exF3.ebands.nspinor = exF1.ebands.nspinor))) :=
  ⟨by decide, C2_consistency_check [exF1, exF2bad, exF3] exF1 exF2bad exF3 (by decide)⟩

/-- Eigenvalue table of the silicon Γ-point test case: eight bands with
degeneracy pattern `[0], [1, 2, 3], [4, 5, 6], [7]`. -/
def exSiEigens : List (List (List Rat)) :=
  [[[-617 / 100, 29 / 5, 29 / 5, 29 / 5, 83 / 10, 83 / 10, 83 / 10, 47 / 5]]]

/-- Witness for C7 on the silicon Γ-point eigenvalues. -/
theorem C7_witness :
    ((([0, 1, 2, 3, 4, 5, 6, 7] : List Nat).map
        (fun b => eigenAt exSiEigens 0 0 b)).Chain' (· ≤ ·)) ∧
    ((((degeneracies exSiEigens 0 0 [0, 1, 2, 3, 4, 5, 6, 7]).map Prod.snd).flatten =
        [0, 1, 2, 3, 4, 5, 6, 7]) ∧
      (∀ c ∈ degeneracies exSiEigens 0 0 [0, 1, 2, 3, 4, 5, 6, 7], ∀ b ∈ c.2,
          eigenAt exSiEigens 0 0 b = c.1) ∧
      (((degeneracies exSiEigens 0 0 [0, 1, 2, 3, 4, 5, 6, 7]).map Prod.fst).Pairwise
        (· < ·))) :=
  ⟨by norm_num [exSiEigens, eigenAt, List.getD, List.chain'_cons, List.chain'_singleton],
    C7_degeneracies_partition exSiEigens 0 0 [0, 1, 2, 3, 4, 5, 6, 7]
      (by norm_num [exSiEigens, eigenAt, List.getD, List.chain'_cons, List.chain'_singleton])⟩

end Ddk
